import Mathlib

/-!
Verification of the multi-provider generative-AI gateway against its
natural-language specification.

The definitions below are a shallow embedding of the Python source:
* `ai_services/ocr_processor.py`   — OCR extraction pipeline and validator
* `ai_services/client_enrichment.py` — enrichment heuristics
* `ai_services/llm_client.py`      — generation gateway and provider adapters
* `ai_settings/models.py`          — provider configuration records
* `ai_settings/views.py`           — HTTP streaming endpoint

Python dictionaries/JSON values are modelled by `PyVal`. Operations that can
raise in Python (attribute access on a wrong type, indexing, containment on a
non-container) are modelled in `Except PyErr`; the surrounding `try/except`
blocks of the source become explicit `match` on the `Except` result.
Numbers are modelled exactly (`Int`/`Rat`); CPython float rounding is out of
scope of the claims checked here.
-/

/-- A Python value as it appears after `json.loads` or as a caller-supplied
argument: `None`, `bool`, `int`, `float` (modelled as `Rat`), `str`, `list`,
`dict` (association list with string keys, first binding wins on lookup). -/
inductive PyVal where
  | none
  | bool (b : Bool)
  | int (n : Int)
  | num (q : Rat)
  | str (s : String)
  | list (xs : List PyVal)
  | dict (kvs : List (String × PyVal))
deriving Repr

/-- Exception kinds relevant to the embedded code paths. -/
inductive PyErr where
  | attributeError
  | typeError
  | keyError
  | valueError
deriving Repr, DecidableEq

@[simp] lemma except_bind_ok {α β ε : Type} (a : α) (f : α → Except ε β) :
    (Except.ok a >>= f) = f a := rfl

@[simp] lemma except_bind_error {α β ε : Type} (e : ε) (f : α → Except ε β) :
    ((Except.error e : Except ε α) >>= f) = (Except.error e : Except ε β) := rfl

@[simp] lemma except_pure_eq_ok {α ε : Type} (a : α) :
    (pure a : Except ε α) = Except.ok a := rfl

namespace PyVal

/-- `isinstance(v, (int, float))` — Python `bool` is a subclass of `int`. -/
def isNumber : PyVal → Bool
  | .bool _ => true
  | .int _ => true
  | .num _ => true
  | _ => false

/-- Numeric value of a number-like `PyVal` (0 otherwise; callers guard with
`isNumber`). `True == 1`, `False == 0` in Python. -/
def toQ : PyVal → Rat
  | .bool b => if b then 1 else 0
  | .int n => (n : Rat)
  | .num q => q
  | _ => 0

/-- `d.get(key, default)`: succeeds only on dicts, raises `AttributeError`
on every other receiver (ints, strings, lists have no `.get`). -/
def pyGet (v : PyVal) (key : String) (default : PyVal) : Except PyErr PyVal :=
  match v with
  | .dict kvs => .ok ((kvs.lookup key).getD default)
  | _ => .error .attributeError

/-- First index (if any) at which `needle` occurs in `hay`. -/
def findSub (hay needle : List Char) : Option Nat :=
  if needle.isPrefixOf hay then some 0
  else
    match hay with
    | [] => Option.none
    | _ :: t => (findSub t needle).map (· + 1)

/-- Substring containment on strings, `sub in s` in Python. -/
def strContains (s sub : String) : Bool :=
  (findSub s.data sub.data).isSome

/-- `key in v`: dict → key membership, str → substring test, list → element
equality against the string, other types → `TypeError`. -/
def pyContains (v : PyVal) (key : String) : Except PyErr Bool :=
  match v with
  | .dict kvs => .ok (kvs.any (fun kv => kv.1 = key))
  | .str s => .ok (strContains s key)
  | .list xs =>
      .ok (xs.any (fun e => match e with | .str t => t = key | _ => false))
  | _ => .error .typeError

/-- `v[key]` with a string key: dict lookup (missing key → `KeyError`);
strings and lists reject string indices with `TypeError`, as do scalars. -/
def pyIndex (v : PyVal) (key : String) : Except PyErr PyVal :=
  match v with
  | .dict kvs =>
      match kvs.lookup key with
      | some w => .ok w
      | Option.none => .error .keyError
  | _ => .error .typeError

/-- `d[key] = value` on a dict: replace the first binding in place if the key
exists, else append (Python dicts keep insertion order). -/
def dictSet (kvs : List (String × PyVal)) (key : String) (v : PyVal) :
    List (String × PyVal) :=
  match kvs with
  | [] => [(key, v)]
  | (k, w) :: rest =>
      if k = key then (k, v) :: rest else (k, w) :: dictSet rest key v

end PyVal

namespace OcrProcessor

open PyVal

/-- `validate_ocr_result`, per-field body: confidence check
(`field.get("confidence", 0)`, must be `int`/`float` within `[0, 1]`) and, when
a `boundingBox` key is present, the bounding-box check. Returns `ok false` for
a failed check, propagates an exception for wrongly-typed receivers. -/
def checkBBoxKey (bbox : PyVal) (key : String) : Except PyErr Bool := do
  let mem ← pyContains bbox key
  if !mem then
    return false
  else
    let v ← pyIndex bbox key
    if !v.isNumber then
      return false
    else if v.toQ < 0 then
      return false
    else
      return true

/-- Checks the four bounding-box keys `x`, `y`, `width`, `height` in order,
stopping at the first failure, as the source loop does. -/
def checkBBox (bbox : PyVal) : List String → Except PyErr Bool
  | [] => .ok true
  | key :: rest => do
      let ok ← checkBBoxKey bbox key
      if ok then checkBBox bbox rest else return false

/-- One iteration of the `for field in result["fields"]` loop. -/
def checkField (field : PyVal) : Except PyErr Bool := do
  let confidence ← pyGet field "confidence" (PyVal.int 0)
  if !confidence.isNumber then
    return false
  else if confidence.toQ < 0 then
    return false
  else if confidence.toQ > 1 then
    return false
  else
    let hasBox ← pyContains field "boundingBox"
    if hasBox then
      let bbox ← pyIndex field "boundingBox"
      checkBBox bbox ["x", "y", "width", "height"]
    else
      return true

/-- The field loop of `validate_ocr_result`: first failing field wins. -/
def checkFields : List PyVal → Except PyErr Bool
  | [] => .ok true
  | f :: rest => do
      let ok ← checkField f
      if ok then checkFields rest else return false

/-- Body of `validate_ocr_result` (everything inside the `try`). -/
def validateInner (result : PyVal) : Except PyErr Bool := do
  let hasFields ← pyContains result "fields"
  if !hasFields then
    return false
  else
    let fields ← pyIndex result "fields"
    match fields with
    | .list xs =>
        if xs.length = 0 then
          return false
        else
          checkFields xs
    | _ => return false

/-- `validate_ocr_result` (`ocr_processor.py`): the whole body is wrapped in
`try: ... except Exception: return False`. -/
def validate_ocr_result (result : PyVal) : Bool :=
  match validateInner result with
  | .ok b => b
  | .error _ => false

/-- Characterization of the per-key bounding-box check: the key's first
binding exists and is a non-negative number. -/
def bboxKeyOKb (bbox : PyVal) (key : String) : Bool :=
  match bbox with
  | .dict bk =>
      match bk.lookup key with
      | some v => v.isNumber && decide (0 ≤ v.toQ)
      | Option.none => false
  | .none => false
  | .bool _ => false
  | .int _ => false
  | .num _ => false
  | .str _ => false
  | .list _ => false

/-- Characterization of the full bounding-box check. -/
def bboxOKb (bbox : PyVal) : Bool :=
  ["x", "y", "width", "height"].all (fun key => bboxKeyOKb bbox key)

/-- Characterization of the per-field check of `validate_ocr_result`:
the field is a dict, its confidence (0 when absent) is a number in `[0, 1]`,
and its bounding box (when present) passes `bboxOKb`. -/
def fieldOKb (field : PyVal) : Bool :=
  match field with
  | .dict kvs =>
      (match kvs.lookup "confidence" with
       | some c => c.isNumber && decide (0 ≤ c.toQ) && decide (c.toQ ≤ 1)
       | Option.none => true) &&
      (match kvs.lookup "boundingBox" with
       | some b => bboxOKb b
       | Option.none => true)
  | .none => false
  | .bool _ => false
  | .int _ => false
  | .num _ => false
  | .str _ => false
  | .list _ => false

/-- The validity predicate exactly as the specification words it: every
field's confidence lies in `[0, 1]`, and every bounding box has all four keys
`x`, `y`, `width`, `height` present with numeric values `≥ 0`. -/
def specFieldPred (field : PyVal) : Prop :=
  (∀ kvs, field = PyVal.dict kvs →
    (∀ c, kvs.lookup "confidence" = some c →
      c.isNumber = true ∧ 0 ≤ c.toQ ∧ c.toQ ≤ 1) ∧
    (∀ b, kvs.lookup "boundingBox" = some b →
      ∀ key ∈ ["x", "y", "width", "height"],
        ∃ bk v, b = PyVal.dict bk ∧ bk.lookup key = some v ∧
          v.isNumber = true ∧ 0 ≤ v.toQ))

lemma any_key_eq_lookup_isSome (kvs : List (String × PyVal)) (key : String) :
    kvs.any (fun kv => kv.1 = key) = (kvs.lookup key).isSome := by
  induction kvs with
  | nil => rfl
  | cons kv rest ih =>
      obtain ⟨k, v⟩ := kv
      by_cases hk : k = key
      · subst hk
        simp [List.lookup]
      · have hk' : (key == k) = false := beq_eq_false_iff_ne.mpr (fun h => hk h.symm)
        simp [List.lookup, hk, hk', ih]

lemma checkBBoxKey_ok_true_iff (bbox : PyVal) (key : String) :
    checkBBoxKey bbox key = .ok true ↔ bboxKeyOKb bbox key = true := by
  cases bbox with
  | dict bk =>
      rw [checkBBoxKey, bboxKeyOKb]
      simp only [pyContains, pyIndex, any_key_eq_lookup_isSome]
      cases h : bk.lookup key with
      | none => simp [Except.bind]
      | some v =>
          simp only [h, Option.isSome_some, Bool.not_true, Except.bind]
          by_cases hn : v.isNumber = true
          · by_cases hneg : v.toQ < 0
            · simp [hn, hneg, not_le.mpr hneg]
            · simp [hn, hneg, not_lt.mp hneg]
          · simp [hn]
  | str s =>
      rw [checkBBoxKey, bboxKeyOKb]
      cases h : strContains s key <;>
        simp [pyContains, pyIndex, h, Except.bind]
  | list xs =>
      rw [checkBBoxKey, bboxKeyOKb]
      cases h : xs.any (fun e => match e with | .str t => t = key | _ => false) <;>
        simp [pyContains, pyIndex, h, Except.bind]
  | none => simp [checkBBoxKey, bboxKeyOKb, pyContains, Except.bind]
  | bool b => simp [checkBBoxKey, bboxKeyOKb, pyContains, Except.bind]
  | int n => simp [checkBBoxKey, bboxKeyOKb, pyContains, Except.bind]
  | num q => simp [checkBBoxKey, bboxKeyOKb, pyContains, Except.bind]

lemma checkBBox_ok_true_iff (bbox : PyVal) (keys : List String) :
    checkBBox bbox keys = .ok true ↔ keys.all (fun k => bboxKeyOKb bbox k) = true := by
  induction keys with
  | nil => simp [checkBBox]
  | cons key rest ih =>
      rw [checkBBox]
      cases h : checkBBoxKey bbox key with
      | error e =>
          have : ¬ bboxKeyOKb bbox key = true := by
            intro hb
            have := (checkBBoxKey_ok_true_iff bbox key).mpr hb
            rw [h] at this
            exact Except.noConfusion this
          simp [Except.bind, h, this]
      | ok b =>
          cases b with
          | true =>
              have hb := (checkBBoxKey_ok_true_iff bbox key).mp h
              simp [Except.bind, h, hb, ih]
          | false =>
              have : ¬ bboxKeyOKb bbox key = true := by
                intro hb
                have := (checkBBoxKey_ok_true_iff bbox key).mpr hb
                rw [h] at this
                simp at this
              simp [Except.bind, h, this]

lemma checkField_ok_true_iff (field : PyVal) :
    checkField field = .ok true ↔ fieldOKb field = true := by
  cases field with
  | dict kvs =>
      rw [checkField, fieldOKb]
      simp only [pyGet, pyContains, pyIndex, any_key_eq_lookup_isSome, Except.bind]
      cases hc : kvs.lookup "confidence" with
      | none =>
          simp only [hc, Option.getD_none]
          have h00 : ¬ (PyVal.toQ (.int 0) < 0) := by norm_num [PyVal.toQ]
          have h01 : ¬ ((1 : Rat) < PyVal.toQ (.int 0)) := by norm_num [PyVal.toQ]
          cases hb : kvs.lookup "boundingBox" with
          | none => simp [hb, PyVal.isNumber, h00, h01]
          | some b =>
              simp [hb, PyVal.isNumber, h00, h01,
                checkBBox_ok_true_iff, bboxOKb]
      | some c =>
          simp only [hc, Option.getD_some]
          by_cases hn : c.isNumber = true
          · by_cases hneg : c.toQ < 0
            · simp [hn, hneg, not_le.mpr hneg]
            · by_cases hgt : c.toQ > 1
              · simp [hn, hneg, hgt, not_le.mpr hgt]
              · cases hb : kvs.lookup "boundingBox" with
                | none => simp [Except.bind, hb, hn, hneg, hgt,
                    not_lt.mp hneg, not_lt.mp hgt]
                | some b =>
                    simp [Except.bind, hb, hn, hneg, hgt,
                      not_lt.mp hneg, not_lt.mp hgt,
                      checkBBox_ok_true_iff, bboxOKb]
          · simp [hn]
  | none => simp [checkField, fieldOKb, pyGet, Except.bind]
  | bool b => simp [checkField, fieldOKb, pyGet, Except.bind]
  | int n => simp [checkField, fieldOKb, pyGet, Except.bind]
  | num q => simp [checkField, fieldOKb, pyGet, Except.bind]
  | str s => simp [checkField, fieldOKb, pyGet, Except.bind]
  | list xs => simp [checkField, fieldOKb, pyGet, Except.bind]

lemma checkFields_ok_true_iff (fields : List PyVal) :
    checkFields fields = .ok true ↔ ∀ f ∈ fields, fieldOKb f = true := by
  induction fields with
  | nil => simp [checkFields]
  | cons f rest ih =>
      rw [checkFields]
      cases h : checkField f with
      | error e =>
          have : ¬ fieldOKb f = true := by
            intro hb
            have := (checkField_ok_true_iff f).mpr hb
            rw [h] at this
            exact Except.noConfusion this
          simp [Except.bind, h, this]
      | ok b =>
          cases b with
          | true =>
              have hb := (checkField_ok_true_iff f).mp h
              simp [Except.bind, h, hb, ih]
          | false =>
              have : ¬ fieldOKb f = true := by
                intro hb
                have := (checkField_ok_true_iff f).mpr hb
                rw [h] at this
                simp at this
              simp [Except.bind, h, this]

/-- Python `round(x, 2)` on the exact rational value: round half to even at
two decimal places (CPython rounds the nearest binary float; on the dyadic
values arising here the exact-rational model coincides). -/
def roundHalfEven (q : Rat) : Int :=
  let f := ⌊q⌋
  let r := q - f
  if r < 1/2 then f
  else if 1/2 < r then f + 1
  else if Even f then f else f + 1

/-- `round(avg_confidence, 2)` from `process_ocr`. -/
def round2 (q : Rat) : Rat := (roundHalfEven (q * 100) : Rat) / 100

/-- `sum(f.get("confidence", 0) for f in result["fields"])`: `f.get` raises
`AttributeError` on a non-dict field; `sum` raises `TypeError` when adding a
non-numeric confidence. -/
def sumConfidences : List PyVal → Except PyErr Rat
  | [] => .ok 0
  | f :: rest => do
      let c ← pyGet f "confidence" (PyVal.int 0)
      if c.isNumber then do
        let s ← sumConfidences rest
        return c.toQ + s
      else
        .error .typeError

/-- `process_ocr`, lines 162–170: when the parsed result has no
`overallConfidence` key, set it to `round(sum(f.get("confidence", 0) for f in
fields) / len(fields), 2)`, or to `0.0` when the field list is empty
(falsy). A non-list `fields` value either behaves like its truthiness or
raises when iterated, as in Python. -/
def ocrSetOverallConfidence (result : PyVal) : Except PyErr PyVal :=
  match result with
  | .dict kvs =>
      if kvs.any (fun kv => kv.1 = "overallConfidence") then .ok result
      else
        match kvs.lookup "fields" with
        | Option.none => .error .keyError
        | some fields =>
            match fields with
            | .list fs =>
                if fs.length ≠ 0 then do
                  let s ← sumConfidences fs
                  let avg := s / (fs.length : Rat)
                  return .dict (dictSet kvs "overallConfidence" (.num (round2 avg)))
                else
                  .ok (.dict (dictSet kvs "overallConfidence" (.num 0)))
            | .str s =>
                if s ≠ "" then .error .attributeError
                else .ok (.dict (dictSet kvs "overallConfidence" (.num 0)))
            | .dict kv2 =>
                if kv2.isEmpty then .ok (.dict (dictSet kvs "overallConfidence" (.num 0)))
                else .error .attributeError
            | .none => .ok (.dict (dictSet kvs "overallConfidence" (.num 0)))
            | .bool b =>
                if b then .error .typeError
                else .ok (.dict (dictSet kvs "overallConfidence" (.num 0)))
            | .int n =>
                if n ≠ 0 then .error .typeError
                else .ok (.dict (dictSet kvs "overallConfidence" (.num 0)))
            | .num q =>
                if q ≠ 0 then .error .typeError
                else .ok (.dict (dictSet kvs "overallConfidence" (.num 0)))
  | .none => .error .typeError
  | .bool _ => .error .typeError
  | .int _ => .error .typeError
  | .num _ => .error .typeError
  | .str _ => .error .typeError
  | .list _ => .error .typeError

/-- The numeric confidence a field carries, when it has one. -/
def confidenceOf (f : PyVal) : Option Rat :=
  match f with
  | .dict kvs =>
      match kvs.lookup "confidence" with
      | some c => if c.isNumber then some c.toQ else Option.none
      | Option.none => Option.none
  | .none => Option.none
  | .bool _ => Option.none
  | .int _ => Option.none
  | .num _ => Option.none
  | .str _ => Option.none
  | .list _ => Option.none

/-- The overall confidence exactly as the specification words it: the
arithmetic mean of the confidences of the fields that have one, and `0.0`
when there are none. -/
def specOverallConfidence (fields : List PyVal) : Rat :=
  let cs := fields.filterMap confidenceOf
  if cs.length = 0 then 0 else cs.sum / (cs.length : Rat)

/-- `f.get("confidence", 0)` contribution of one field to the code's sum. -/
def confOrZero (f : PyVal) : Rat :=
  match f with
  | .dict kvs =>
      match kvs.lookup "confidence" with
      | some c => c.toQ
      | Option.none => 0
  | _ => 0

/-- Hypothesis under which the code's sum does not raise: the field is a
dict and its confidence, when present, is numeric. -/
def fieldConfOk (f : PyVal) : Bool :=
  match f with
  | .dict kvs =>
      match kvs.lookup "confidence" with
      | some c => c.isNumber
      | Option.none => true
  | .none => false
  | .bool _ => false
  | .int _ => false
  | .num _ => false
  | .str _ => false
  | .list _ => false

lemma sumConfidences_eq_sum (fields : List PyVal)
    (h : ∀ f ∈ fields, fieldConfOk f = true) :
    sumConfidences fields = .ok ((fields.map confOrZero).sum) := by
  induction fields with
  | nil => simp [sumConfidences]
  | cons f rest ih =>
      have hf := h f (List.mem_cons_self f rest)
      have hrest := ih (fun g hg => h g (List.mem_cons_of_mem f hg))
      cases f with
      | dict kvs =>
          rw [sumConfidences]
          simp only [pyGet]
          rw [fieldConfOk] at hf
          cases hc : kvs.lookup "confidence" with
          | none =>
              simp [hc, hrest, confOrZero, PyVal.isNumber, PyVal.toQ]
          | some c =>
              rw [hc] at hf
              simp only at hf
              simp [hc, hf, hrest, confOrZero]
      | none => rw [fieldConfOk] at hf; exact absurd hf (by simp)
      | bool b => rw [fieldConfOk] at hf; exact absurd hf (by simp)
      | int n => rw [fieldConfOk] at hf; exact absurd hf (by simp)
      | num q => rw [fieldConfOk] at hf; exact absurd hf (by simp)
      | str s => rw [fieldConfOk] at hf; exact absurd hf (by simp)
      | list xs => rw [fieldConfOk] at hf; exact absurd hf (by simp)

end OcrProcessor

namespace ClientEnrichment

/-- Python `int()` applied to an exact rational: truncation toward zero. -/
def pyTrunc (q : Rat) : Int :=
  if 0 ≤ q then ⌊q⌋ else ⌈q⌉

/-- `ClientEnrichmentService._normalize_capital`, numeric branch
(`client_enrichment.py` lines 334–350): the value has already been converted
to a number (`capital = float(value)`); the magnitude heuristic follows.
The string-to-number conversion branch and the None-like guard above it are
not needed by the claims, which quantify over numeric inputs. -/
def normalize_capital (capital : Rat) : Int :=
  if capital < 10000 then
    pyTrunc (capital * 10000)
  else if 10000 ≤ capital ∧ capital < 100000 then
    pyTrunc (capital * 10000)
  else
    pyTrunc capital

end ClientEnrichment

namespace AISettings

/-- `AIProvider` (`ai_settings/models.py`): the fields the gateway and the
save logic read. `provider_type` is a `CharField` with choices
openai / azure_openai / anthropic / google; `max_tokens` defaults to 4000 and
`temperature` to 0.7 in the Django model. -/
structure AIProvider where
  pk : Nat
  name : String
  provider_type : String
  model_name : String
  max_tokens : Int
  temperature : Rat
  is_active : Bool
  is_default : Bool
deriving Repr, DecidableEq

/-- `AIProvider.objects.filter(is_default=True).exclude(pk=self.pk)
.update(is_default=False)`: demote every other default, active or not. -/
def demoteOtherDefaults (p : AIProvider) (db : List AIProvider) :
    List AIProvider :=
  db.map (fun q =>
    if q.is_default ∧ q.pk ≠ p.pk then { q with is_default := false } else q)

/-- `super().save()`: replace the row with the same primary key, or insert a
new row. -/
def upsert (p : AIProvider) (db : List AIProvider) : List AIProvider :=
  if db.any (fun q => q.pk = p.pk) then
    db.map (fun q => if q.pk = p.pk then p else q)
  else
    db ++ [p]

/-- `AIProvider.save` (`models.py` lines 175–181): if the saved record has
`is_default` set, first demote every other default, then write the record. -/
def save (p : AIProvider) (db : List AIProvider) : List AIProvider :=
  upsert p (if p.is_default then demoteOtherDefaults p db else db)

end AISettings

namespace LlmClient

open AISettings

/-- Errors of the gateway's unified taxonomy that the embedded paths raise. -/
inductive AIError where
  | apiCallError (msg : String)
  | streamingError (msg : String)
deriving Repr, DecidableEq

/-- `max_tokens = kwargs.pop('max_tokens', self.provider.max_tokens)`
(`generate_stream`, line 192). -/
def streamMaxTokens (p : AIProvider) (kwMaxTokens : Option Int) : Int :=
  kwMaxTokens.getD p.max_tokens

/-- `temperature = kwargs.pop('temperature', self.provider.temperature)`
(`generate_stream`, line 193). -/
def streamTemperature (p : AIProvider) (kwTemperature : Option Rat) : Rat :=
  kwTemperature.getD p.temperature

/-- `timeout=kwargs.get('timeout', 50.0)` — every streaming adapter
(`_stream_azure_openai`, `_stream_openai`, `_stream_anthropic`). -/
def adapterTimeout (kwTimeout : Option Rat) : Rat :=
  kwTimeout.getD 50

/-- `generate_with_image(..., max_tokens: int = 2000, ...)` (line 122). -/
def imageMaxTokens (kwMaxTokens : Option Int) : Int :=
  kwMaxTokens.getD 2000

/-- `generate_with_image(..., temperature: float = 0.1)` (line 123). -/
def imageTemperature (kwTemperature : Option Rat) : Rat :=
  kwTemperature.getD (1/10)

/-- One OpenAI-protocol stream chunk: `chunk.choices[i].delta.content`.
`content` is `None` or a string. -/
structure OpenAIDelta where
  content : Option String
deriving Repr, DecidableEq

structure OpenAIChoice where
  delta : OpenAIDelta
deriving Repr, DecidableEq

structure OpenAIChunk where
  choices : List OpenAIChoice
deriving Repr, DecidableEq

/-- One Google-protocol stream chunk: `chunk.text` is `None` or a string. -/
structure GoogleChunk where
  text : Option String
deriving Repr, DecidableEq

/-- `if chunk.choices and chunk.choices[0].delta.content: yield ...` —
truthiness: a missing or empty choices list, a `None` content and an empty
string content are all skipped. -/
def openaiChunkText (c : OpenAIChunk) : Option String :=
  match c.choices with
  | [] => Option.none
  | ch :: _ =>
      match ch.delta.content with
      | some s => if s = "" then Option.none else some s
      | Option.none => Option.none

/-- A vendor call as the adapter observes it: either the SDK raises (message
string) or the iteration yields this list of protocol chunks. -/
abbrev VendorResult (χ : Type) := Except String (List χ)

/-- `AIClient._stream_azure_openai`: yields each chunk's delta content when
truthy; any SDK exception becomes `APICallError`. -/
def streamAzureOpenai (vendor : VendorResult OpenAIChunk) :
    Except AIError (List String) :=
  match vendor with
  | .ok chunks => .ok (chunks.filterMap openaiChunkText)
  | .error msg => .error (.apiCallError ("Azure OpenAI API エラー: " ++ msg))

/-- `AIClient._stream_openai`: same loop body as the Azure adapter. -/
def streamOpenai (vendor : VendorResult OpenAIChunk) :
    Except AIError (List String) :=
  match vendor with
  | .ok chunks => .ok (chunks.filterMap openaiChunkText)
  | .error msg => .error (.apiCallError ("OpenAI API エラー: " ++ msg))

/-- `AIClient._stream_anthropic`: `for text in stream.text_stream: yield
text` — every fragment of the SDK's text stream is yielded unfiltered. -/
def streamAnthropic (vendor : VendorResult String) :
    Except AIError (List String) :=
  match vendor with
  | .ok texts => .ok texts
  | .error msg => .error (.apiCallError ("Anthropic API エラー: " ++ msg))

/-- `AIClient._stream_google`: `if chunk.text: yield chunk.text`. -/
def streamGoogle (vendor : VendorResult GoogleChunk) :
    Except AIError (List String) :=
  match vendor with
  | .ok chunks =>
      .ok (chunks.filterMap (fun c =>
        match c.text with
        | some s => if s = "" then Option.none else some s
        | Option.none => Option.none))
  | .error msg => .error (.apiCallError ("Google Gemini API エラー: " ++ msg))

/-- The vendor-side behaviour of one call, per protocol; the dispatched
adapter consumes the stream of its own provider type. -/
structure VendorWorld where
  azure : VendorResult OpenAIChunk
  openai : VendorResult OpenAIChunk
  anthropic : VendorResult String
  google : VendorResult GoogleChunk

/-- `AIClient.generate_stream` (lines 170–225): dispatch on
`provider.provider_type`; an unsupported type raises `APICallError`; adapter
errors pass through unchanged (they are already `APICallError`). -/
def generate_stream (p : AIProvider) (w : VendorWorld) :
    Except AIError (List String) :=
  if p.provider_type = "azure_openai" then streamAzureOpenai w.azure
  else if p.provider_type = "openai" then streamOpenai w.openai
  else if p.provider_type = "anthropic" then streamAnthropic w.anthropic
  else if p.provider_type = "google" then streamGoogle w.google
  else .error (.apiCallError
    ("サポートされていないプロバイダータイプ: " ++ p.provider_type))

/-- Error text prefix of `generate`'s blanket `except` clause. -/
def generateErrorWrap : AIError → AIError
  | .apiCallError msg => .apiCallError ("テキスト生成エラー: " ++ msg)
  | .streamingError msg => .apiCallError ("テキスト生成エラー: " ++ msg)

/-- `AIClient.generate` (lines 84–116): drives `generate_stream` to
completion, concatenating the chunks with `full_response += chunk`; any
exception is re-raised as `APICallError`. -/
def generate (p : AIProvider) (w : VendorWorld) : Except AIError String :=
  match generate_stream p w with
  | .ok chunks => .ok (chunks.foldl (· ++ ·) "")
  | .error e => .error (generateErrorWrap e)

end LlmClient

namespace AISettingsViews

/-- One logical server-sent event of `test_prompt.stream_response`
(`ai_settings/views.py` lines 133–150). -/
inductive SSEEvent where
  | content (chunk : String)
  | done
  | failed (msg : String)
deriving Repr, DecidableEq

/-- Whether an event is terminal (`done` or `error` payload). -/
def SSEEvent.isTerminal : SSEEvent → Bool
  | .content _ => false
  | .done => true
  | .failed _ => true

/-- JSON string escaping as `json.dumps` performs it on the characters that
occur in model output: backslash, quote and the common control characters.
Modelled from the spec: `json.dumps` is the Python standard library, not part
of this repository; remaining control characters keep their `\\u` escape
omitted, which no claim depends on. -/
def pyJsonEscape (s : String) : String :=
  s.data.foldl (fun acc c =>
    acc ++ (if c = '\\' then "\\\\"
            else if c = '"' then "\\\""
            else if c = '\n' then "\\n"
            else if c = '\r' then "\\r"
            else if c = '\t' then "\\t"
            else String.mk [c])) ""

/-- The JSON payload of one event, as `json.dumps({'content': chunk},
ensure_ascii=False)`, `json.dumps({'done': True})` and `json.dumps({'error':
error_msg})` serialize it. -/
def eventPayload : SSEEvent → String
  | .content chunk => "\x7b\"content\": \"" ++ pyJsonEscape chunk ++ "\"\x7d"
  | .done => "\x7b\"done\": true\x7d"
  | .failed msg => "\x7b\"error\": \"" ++ pyJsonEscape msg ++ "\"\x7d"

/-- The `data: <json>\n\n` framing of one event. -/
def frameEvent (e : SSEEvent) : String :=
  "data: " ++ eventPayload e ++ "\n\n"

/-- The terminal event of a run: `{"done": true}` when the generator loop
completed, `{"error": ...}` when an exception interrupted it. -/
def terminalOf (failure : Option String) : SSEEvent :=
  match failure with
  | Option.none => .done
  | some msg => .failed msg

/-- The logical event sequence of one run of `stream_response`: the client's
stream produced `chunks` and then either finished (`failure = none`) or threw
(`failure = some msg`). Falsy (empty) chunks are skipped by `if chunk:`; the
`except` clause turns the pending exception into one error event; on normal
completion exactly the `done` event follows. -/
def stream_response_events (chunks : List String) (failure : Option String) :
    List SSEEvent :=
  (chunks.filter (fun c => c ≠ "")).map SSEEvent.content ++ [terminalOf failure]

/-- The raw lines written to the HTTP response: each event framed as
`data: <json>\n\n`. -/
def stream_response (chunks : List String) (failure : Option String) :
    List String :=
  (stream_response_events chunks failure).map frameEvent

end AISettingsViews

namespace OcrProcessor

open PyVal

/-- Python `str.find(sub, start)`: first index of `sub` at or after `start`,
`-1` when absent. -/
def pyFind (s sub : String) (start : Nat) : Int :=
  match findSub (s.data.drop start) sub.data with
  | some k => ((start + k : Nat) : Int)
  | Option.none => -1

/-- Python slice `s[start:stop]` with a non-negative `start` and a possibly
negative `stop` (negative indices count from the end; out-of-range bounds are
clamped). -/
def pySlice (s : String) (start : Nat) (stop : Int) : String :=
  let n := s.data.length
  let stopN : Nat := if stop < 0 then ((n : Int) + stop).toNat else min stop.toNat n
  String.mk ((s.data.drop start).take (stopN - start))

/-- The whitespace set of Python `str.strip()` (ASCII part). -/
def isPyWs (c : Char) : Bool :=
  c = ' ' ∨ c = '\t' ∨ c = '\n' ∨ c = '\r' ∨ c = '\x0b' ∨ c = '\x0c'

/-- Python `str.strip()`: drop leading and trailing whitespace. -/
def pyStrip (s : String) : String :=
  String.mk (((s.data.dropWhile isPyWs).reverse.dropWhile isPyWs).reverse)

/-- The JSON-candidate selection of `process_ocr` (lines 114–125): if
`"```json"` occurs, slice from 7 past its start to the next ` ``` ` (to the
last-but-one character when no closing fence exists, because `find` returns
`-1` and the slice end is negative); else if ` ``` ` occurs, the analogous
slice 3 past its start; otherwise the whole stripped response. Exactly one
candidate is produced — there is no bare `{...}` strategy and no fallback
when the chosen candidate fails to parse. -/
def ocrExtractJson (response : String) : String :=
  if strContains response "```json" then
    let jsonStart : Nat := (pyFind response "```json" 0).toNat + 7
    let jsonEnd : Int := pyFind response "```" jsonStart
    pyStrip (pySlice response jsonStart jsonEnd)
  else if strContains response "```" then
    let jsonStart : Nat := (pyFind response "```" 0).toNat + 3
    let jsonEnd : Int := pyFind response "```" jsonStart
    pyStrip (pySlice response jsonStart jsonEnd)
  else
    pyStrip response

/-- JSON whitespace (the exact set `json.loads` skips). -/
def skipWs : List Char → List Char
  | [] => []
  | c :: rest =>
      if c = ' ' ∨ c = '\t' ∨ c = '\n' ∨ c = '\r' then skipWs rest
      else c :: rest

/-- String body after the opening quote: plain characters up to the closing
quote (escape sequences are outside the modelled subset). -/
def parseStringBody : List Char → Option (String × List Char)
  | [] => Option.none
  | c :: rest =>
      if c = '"' then some ("", rest)
      else if c = '\\' then Option.none
      else (parseStringBody rest).map (fun p => (String.mk [c] ++ p.1, p.2))

/-- One or more decimal digits. -/
def parseDigits (cs : List Char) : Option (Nat × List Char) :=
  let p := cs.span (fun c => c.isDigit)
  match p.1 with
  | [] => Option.none
  | ds => some (ds.foldl (fun acc c => acc * 10 + (c.toNat - '0'.toNat)) 0, p.2)

mutual

/-- Modelled from the spec: `json.loads` (Python standard library, not part
of this repository), restricted to the subset the claims exercise — objects,
arrays, strings without escapes, integers, `true`/`false`/`null`. Fuelled
recursive descent; `jsonParse` supplies ample fuel. -/
def parseValue : Nat → List Char → Option (PyVal × List Char)
  | 0, _ => Option.none
  | Nat.succ fuel, cs =>
      match skipWs cs with
      | '{' :: rest =>
          (match skipWs rest with
           | '}' :: r => some (PyVal.dict [], r)
           | rest1 => (parseMembers fuel rest1).map (fun p => (PyVal.dict p.1, p.2)))
      | '[' :: rest =>
          (match skipWs rest with
           | ']' :: r => some (PyVal.list [], r)
           | rest1 => (parseItems fuel rest1).map (fun p => (PyVal.list p.1, p.2)))
      | '"' :: rest => (parseStringBody rest).map (fun p => (PyVal.str p.1, p.2))
      | 't' :: 'r' :: 'u' :: 'e' :: rest => some (PyVal.bool true, rest)
      | 'f' :: 'a' :: 'l' :: 's' :: 'e' :: rest => some (PyVal.bool false, rest)
      | 'n' :: 'u' :: 'l' :: 'l' :: rest => some (PyVal.none, rest)
      | '-' :: rest => (parseDigits rest).map (fun p => (PyVal.int (-(p.1 : Int)), p.2))
      | cs1 => (parseDigits cs1).map (fun p => (PyVal.int (p.1 : Int), p.2))

/-- Members of a JSON object (at least one `"key": value` pair). -/
def parseMembers : Nat → List Char → Option (List (String × PyVal) × List Char)
  | 0, _ => Option.none
  | Nat.succ fuel, cs =>
      match skipWs cs with
      | '"' :: rest =>
          match parseStringBody rest with
          | Option.none => Option.none
          | some (k, r1) =>
              match skipWs r1 with
              | ':' :: r2 =>
                  (match parseValue fuel r2 with
                   | Option.none => Option.none
                   | some (v, r3) =>
                       match skipWs r3 with
                       | ',' :: r4 =>
                           (parseMembers fuel r4).map
                             (fun p => ((k, v) :: p.1, p.2))
                       | '}' :: r4 => some ([(k, v)], r4)
                       | _ => Option.none)
              | _ => Option.none
      | _ => Option.none

/-- Items of a JSON array (at least one value). -/
def parseItems : Nat → List Char → Option (List PyVal × List Char)
  | 0, _ => Option.none
  | Nat.succ fuel, cs =>
      match parseValue fuel cs with
      | Option.none => Option.none
      | some (v, r1) =>
          match skipWs r1 with
          | ',' :: r2 => (parseItems fuel r2).map (fun p => (v :: p.1, p.2))
          | ']' :: r2 => some ([v], r2)
          | _ => Option.none

end

/-- `json.loads`: parse one value with nothing but whitespace after it. -/
def jsonParse (s : String) : Option PyVal :=
  match parseValue (s.data.length + 1) s.data with
  | some (v, rest) => if skipWs rest = [] then some v else Option.none
  | Option.none => Option.none

/-- Failure of the JSON-decoding stage of `process_ocr`: the
`json.JSONDecodeError` handler re-raises `APICallError` (the truncated raw
response goes to the error log, not into the exception). -/
inductive OcrFailure where
  | malformedOutput
deriving Repr, DecidableEq

/-- The JSON-selection-and-parse stage of `process_ocr` (lines 113–132):
one candidate chosen by `ocrExtractJson`, one `json.loads` attempt. -/
def ocrParseStage (response : String) : Except OcrFailure PyVal :=
  match jsonParse (ocrExtractJson response) with
  | some v => .ok v
  | Option.none => .error .malformedOutput

/-- Last index of `c` in `cs`, if any. -/
def lastIdxOf (cs : List Char) (c : Char) : Option Nat :=
  match findSub cs.reverse [c] with
  | some k => some (cs.length - 1 - k)
  | Option.none => Option.none

/-- Modelled from the spec: the bare `{...}` pattern (`re.search(r'\{.*\}',
text, re.DOTALL)` — leftmost `{` that still has a `}` after it, greedily to
the last `}`). -/
def braceCandidate (response : String) : Option String :=
  let cs := response.data
  match lastIdxOf cs '}' with
  | Option.none => Option.none
  | some j =>
      match findSub cs ['{'] with
      | Option.none => Option.none
      | some i =>
          if i < j then some (String.mk ((cs.drop i).take (j - i + 1)))
          else Option.none

/-- Modelled from the spec: the fenced code-block candidate (the slice the
code itself takes when a fence is present). -/
def fencedCandidate (response : String) : Option String :=
  if strContains response "```json" then
    let jsonStart : Nat := (pyFind response "```json" 0).toNat + 7
    some (pyStrip (pySlice response jsonStart (pyFind response "```" jsonStart)))
  else if strContains response "```" then
    let jsonStart : Nat := (pyFind response "```" 0).toNat + 3
    some (pyStrip (pySlice response jsonStart (pyFind response "```" jsonStart)))
  else
    Option.none

/-- First candidate that parses, in the claimed priority order. -/
def firstParse : List String → Option PyVal
  | [] => Option.none
  | c :: rest =>
      match jsonParse c with
      | some v => some v
      | Option.none => firstParse rest

/-- Modelled from the spec: the claimed strategy — try the fenced block,
then the bare `{...}` span, then the whole trimmed text; first successful
parse wins. -/
def specExtractParse (response : String) : Option PyVal :=
  firstParse ((fencedCandidate response).toList ++
    (braceCandidate response).toList ++ [pyStrip response])

end OcrProcessor

section Fixtures

open AISettings

/-- A provider configured with the Django model's defaults
(`max_tokens=4000`, `temperature=0.7`), active and default. -/
def providerAzure : AIProvider :=
  { pk := 1, name := "Azure GPT-4o", provider_type := "azure_openai",
    model_name := "gpt-4o", max_tokens := 4000, temperature := 7/10,
    is_active := true, is_default := true }

/-- A second, inactive provider record whose default flag is set. -/
def providerInactiveDefault : AIProvider :=
  { pk := 2, name := "Claude backup", provider_type := "anthropic",
    model_name := "claude-3-5-sonnet", max_tokens := 4000, temperature := 7/10,
    is_active := false, is_default := true }

/-- A vendor world in which the azure stream yields three content deltas. -/
def worldThreeChunks : LlmClient.VendorWorld :=
  { azure := .ok [⟨[⟨⟨some "Hel"⟩⟩]⟩, ⟨[⟨⟨some "lo, "⟩⟩]⟩, ⟨[⟨⟨some "world"⟩⟩]⟩],
    openai := .ok [], anthropic := .ok [], google := .ok [] }

end Fixtures

/-- Claim C1: for every fixed provider and vendor behaviour, when the streaming
operation `generate_stream` yields a chunk list, the synchronous `generate`
returns exactly the left-to-right concatenation of those chunks. -/
theorem generate_eq_concat_generate_stream
    (p : AISettings.AIProvider) (w : LlmClient.VendorWorld)
    (chunks : List String)
    (h : LlmClient.generate_stream p w = .ok chunks) :
    LlmClient.generate p w = .ok (chunks.foldl (· ++ ·) "") := by
  rw [LlmClient.generate, h]

/-- Witness for C1 at a concrete provider and a concrete three-chunk vendor
stream. -/
theorem generate_eq_concat_generate_stream_witness :
    LlmClient.generate_stream providerAzure worldThreeChunks =
      .ok ["Hel", "lo, ", "world"] ∧
    LlmClient.generate providerAzure worldThreeChunks =
      .ok (["Hel", "lo, ", "world"].foldl (· ++ ·) "") :=
  ⟨rfl, generate_eq_concat_generate_stream providerAzure worldThreeChunks
    ["Hel", "lo, ", "world"] rfl⟩

/-- Helper for C9: the OpenAI-protocol delta filter only passes non-empty
content strings. -/
lemma openaiChunkText_ne_empty (c : LlmClient.OpenAIChunk) (s : String)
    (h : LlmClient.openaiChunkText c = some s) : s ≠ "" := by
  rw [LlmClient.openaiChunkText] at h
  rcases c with ⟨choices⟩
  cases choices with
  | nil => exact absurd h (by simp)
  | cons ch rest =>
      rcases ch with ⟨⟨content⟩⟩
      cases content with
      | none => exact absurd h (by simp)
      | some t =>
          simp only at h
          by_cases ht : t = ""
          · rw [if_pos ht] at h
            exact absurd h (by simp)
          · rw [if_neg ht] at h
            cases h
            exact ht

/-- Claim C9 counterexample: the Anthropic adapter forwards the vendor's text
stream unfiltered, so an empty vendor text fragment is yielded as a chunk —
the claim that every adapter yields only non-empty chunks is false. -/
theorem stream_anthropic_empty_chunk_counterexample :
    ∃ cs, LlmClient.streamAnthropic (.ok [""]) = .ok cs ∧ "" ∈ cs :=
  ⟨[""], rfl, by simp⟩

/-- Claim C9 (amended): the Azure OpenAI, OpenAI and Google adapters yield only
non-empty chunks — empty or metadata-only frames are skipped — while the
Anthropic adapter yields the vendor's text fragments exactly as received. -/
theorem adapter_chunk_nonempty_amended :
    (∀ v cs, LlmClient.streamAzureOpenai v = .ok cs → ∀ c ∈ cs, c ≠ "") ∧
    (∀ v cs, LlmClient.streamOpenai v = .ok cs → ∀ c ∈ cs, c ≠ "") ∧
    (∀ v cs, LlmClient.streamGoogle v = .ok cs → ∀ c ∈ cs, c ≠ "") ∧
    (∀ texts, LlmClient.streamAnthropic (.ok texts) = .ok texts) := by
  refine ⟨?_, ?_, ?_, fun texts => rfl⟩
  · intro v cs h c hc
    cases v with
    | error msg => exact absurd h (by simp [LlmClient.streamAzureOpenai])
    | ok chunks =>
        rw [LlmClient.streamAzureOpenai] at h
        cases h
        obtain ⟨ch, _, hch⟩ := List.mem_filterMap.mp hc
        exact openaiChunkText_ne_empty ch c hch
  · intro v cs h c hc
    cases v with
    | error msg => exact absurd h (by simp [LlmClient.streamOpenai])
    | ok chunks =>
        rw [LlmClient.streamOpenai] at h
        cases h
        obtain ⟨ch, _, hch⟩ := List.mem_filterMap.mp hc
        exact openaiChunkText_ne_empty ch c hch
  · intro v cs h c hc
    cases v with
    | error msg => exact absurd h (by simp [LlmClient.streamGoogle])
    | ok chunks =>
        rw [LlmClient.streamGoogle] at h
        cases h
        obtain ⟨ch, _, hch⟩ := List.mem_filterMap.mp hc
        rcases ch with ⟨text⟩
        cases text with
        | none => exact absurd hch (by simp)
        | some t =>
            simp only at hch
            by_cases ht : t = ""
            · rw [if_pos ht] at hch
              exact absurd hch (by simp)
            · rw [if_neg ht] at hch
              cases hch
              exact ht

/-- Witness for C9 (amended) on concrete vendor streams: an empty azure
delta is skipped, and the anthropic pass-through at a concrete list. -/
theorem adapter_chunk_nonempty_amended_witness :
    ("Hi" ≠ "") ∧
    LlmClient.streamAnthropic (.ok ["Hi"]) = .ok ["Hi"] :=
  ⟨adapter_chunk_nonempty_amended.1 (.ok [⟨[⟨⟨some ""⟩⟩]⟩, ⟨[⟨⟨some "Hi"⟩⟩]⟩])
      ["Hi"] rfl "Hi" (by simp),
    adapter_chunk_nonempty_amended.2.2.2 ["Hi"]⟩

/-- Claim C5 counterexample: a multimodal call that leaves `max_tokens` and
`temperature` unset receives the hard-coded literals 2000 and 0.1, not the
provider's stored defaults (4000 and 0.7 here); an unset `timeout` receives
the literal 50.0 (no stored timeout default exists at all). -/
theorem param_literal_defaults_counterexample :
    LlmClient.imageMaxTokens Option.none ≠ providerAzure.max_tokens ∧
    LlmClient.imageTemperature Option.none ≠ providerAzure.temperature ∧
    LlmClient.adapterTimeout Option.none = 50 := by
  refine ⟨?_, ?_, rfl⟩ <;>
    norm_num [LlmClient.imageMaxTokens, LlmClient.imageTemperature,
      providerAzure]

/-- Claim C5 (amended): on the streaming/synchronous path, caller-supplied
`max_tokens` and `temperature` override the provider's stored defaults and
unset ones fall back to the stored defaults; an unset `timeout` falls back to
the hard-coded literal 50.0, and the multimodal path's unset `max_tokens` and
`temperature` fall back to the hard-coded literals 2000 and 0.1. -/
theorem param_resolution_amended (p : AISettings.AIProvider)
    (m : Int) (t : Rat) (tm : Rat) :
    LlmClient.streamMaxTokens p Option.none = p.max_tokens ∧
    LlmClient.streamMaxTokens p (some m) = m ∧
    LlmClient.streamTemperature p Option.none = p.temperature ∧
    LlmClient.streamTemperature p (some t) = t ∧
    LlmClient.adapterTimeout Option.none = 50 ∧
    LlmClient.adapterTimeout (some tm) = tm ∧
    LlmClient.imageMaxTokens Option.none = 2000 ∧
    LlmClient.imageTemperature Option.none = 1/10 :=
  ⟨rfl, rfl, rfl, rfl, rfl, rfl, rfl, rfl⟩

/-- Claim C3: currency normalization multiplies by 10000 below the 100000
threshold and returns the value unchanged at or above it; in particular
5000 ↦ 50000000, 50000 ↦ 500000000, and 100000000 is unchanged. -/
theorem normalize_capital_magnitude :
    (∀ v : Int,
      (((v : Rat) < 100000) →
        ClientEnrichment.normalize_capital (v : Rat) = v * 10000) ∧
      (((100000 : Rat) ≤ (v : Rat)) →
        ClientEnrichment.normalize_capital (v : Rat) = v)) ∧
    ClientEnrichment.normalize_capital 5000 = 50000000 ∧
    ClientEnrichment.normalize_capital 50000 = 500000000 ∧
    ClientEnrichment.normalize_capital 100000000 = 100000000 := by
  have trunc_int : ∀ n : Int, ClientEnrichment.pyTrunc ((n : Int) : Rat) = n := by
    intro n
    rw [ClientEnrichment.pyTrunc]
    split <;> simp
  have general : ∀ v : Int,
      (((v : Rat) < 100000) →
        ClientEnrichment.normalize_capital (v : Rat) = v * 10000) ∧
      (((100000 : Rat) ≤ (v : Rat)) →
        ClientEnrichment.normalize_capital (v : Rat) = v) := by
    intro v
    constructor
    · intro hlt
      rw [ClientEnrichment.normalize_capital]
      have hcast : (v : Rat) * 10000 = ((v * 10000 : Int) : Rat) := by
        push_cast
        ring
      by_cases h1 : (v : Rat) < 10000
      · rw [if_pos h1, hcast, trunc_int]
      · rw [if_neg h1, if_pos ⟨not_lt.mp h1, hlt⟩, hcast, trunc_int]
    · intro hge
      rw [ClientEnrichment.normalize_capital]
      have h1 : ¬ ((v : Rat) < 10000) := not_lt.mpr (le_trans (by norm_num) hge)
      have h2 : ¬ ((10000 : Rat) ≤ (v : Rat) ∧ (v : Rat) < 100000) :=
        fun hc => absurd hc.2 (not_lt.mpr hge)
      rw [if_neg h1, if_neg h2, trunc_int]
  refine ⟨general, ?_, ?_, ?_⟩
  · have h := (general 5000).1 (by norm_num)
    rw [show ((5000 : Int) : Rat) = (5000 : Rat) by norm_num] at h
    rw [h]
    norm_num
  · have h := (general 50000).1 (by norm_num)
    rw [show ((50000 : Int) : Rat) = (50000 : Rat) by norm_num] at h
    rw [h]
    norm_num
  · have h := (general 100000000).2 (by norm_num)
    rw [show ((100000000 : Int) : Rat) = (100000000 : Rat) by norm_num] at h
    rw [h]

/-- Witness for C3 at the three documented inputs. -/
theorem normalize_capital_magnitude_witness :
    ClientEnrichment.normalize_capital ((5000 : Int) : Rat) = 5000 * 10000 ∧
    ClientEnrichment.normalize_capital ((50000 : Int) : Rat) = 50000 * 10000 ∧
    ClientEnrichment.normalize_capital ((100000000 : Int) : Rat) = 100000000 :=
  ⟨(normalize_capital_magnitude.1 5000).1 (by norm_num),
    (normalize_capital_magnitude.1 50000).1 (by norm_num),
    (normalize_capital_magnitude.1 100000000).2 (by norm_num)⟩

/-- Claim C10: `validate_ocr_result` is total — whenever its inner body raises any
exception, the `except` clause converts it to the boolean `False`, so the
validator always returns a boolean and never propagates an exception. -/
theorem validate_ocr_result_total_safe (result : PyVal) (e : PyErr)
    (h : OcrProcessor.validateInner result = .error e) :
    OcrProcessor.validate_ocr_result result = false := by
  rw [OcrProcessor.validate_ocr_result, h]

/-- Witness for C10: a wrongly-typed fields entry (`3` has no `.get`) makes
the inner body raise `AttributeError`, and the validator returns `False`. -/
theorem validate_ocr_result_total_safe_witness :
    OcrProcessor.validate_ocr_result
      (PyVal.dict [("fields", PyVal.list [PyVal.int 3])]) = false :=
  validate_ocr_result_total_safe
    (PyVal.dict [("fields", PyVal.list [PyVal.int 3])]) .attributeError rfl

/-- Claim C2 counterexample: for the result whose field list is empty, every
field (vacuously) satisfies the claimed validity conditions, yet
`validate_ocr_result` returns `False` — the code explicitly rejects an empty
field list, so the claimed biconditional fails there. -/
theorem validate_empty_fields_counterexample :
    (∀ f ∈ ([] : List PyVal), OcrProcessor.specFieldPred f) ∧
    OcrProcessor.validate_ocr_result
      (PyVal.dict [("fields", PyVal.list [])]) = false :=
  ⟨by simp, rfl⟩

/-- Claim C2 (amended): `validate_ocr_result` returns `True` on a result
holding a field list iff the list is non-empty and every field is a dict
whose confidence (0 when absent) is a number in `[0, 1]` and whose bounding
box, when present, has all four keys with numeric values `≥ 0`. -/
theorem validate_ocr_result_iff_amended (fields : List PyVal) :
    OcrProcessor.validate_ocr_result
      (PyVal.dict [("fields", PyVal.list fields)]) = true ↔
    (fields ≠ [] ∧ ∀ f ∈ fields, OcrProcessor.fieldOKb f = true) := by
  have hcontains :
      PyVal.pyContains (PyVal.dict [("fields", PyVal.list fields)]) "fields" =
        .ok true := by
    simp [PyVal.pyContains]
  have hindex :
      PyVal.pyIndex (PyVal.dict [("fields", PyVal.list fields)]) "fields" =
        .ok (PyVal.list fields) := by
    simp [PyVal.pyIndex, List.lookup]
  rw [OcrProcessor.validate_ocr_result, OcrProcessor.validateInner,
    hcontains]
  simp only [except_bind_ok, Bool.not_true, Bool.false_eq_true, if_false,
    hindex]
  by_cases hf : fields = []
  · subst hf
    simp
  · have hlen : ¬ fields.length = 0 := by
      simpa [List.length_eq_zero] using hf
    simp only [hlen, if_false]
    rcases h : OcrProcessor.checkFields fields with e | b
    · simp only [h]
      constructor
      · intro hx
        exact absurd hx (by simp)
      · rintro ⟨-, hall⟩
        have hc := (OcrProcessor.checkFields_ok_true_iff fields).mpr hall
        rw [h] at hc
        exact Except.noConfusion hc
    · cases b with
      | true =>
          have hall := (OcrProcessor.checkFields_ok_true_iff fields).mp h
          simp [h, hf]
          exact hall
      | false =>
          simp only [h]
          constructor
          · intro hx
            exact absurd hx (by simp)
          · rintro ⟨-, hall⟩
            have hc := (OcrProcessor.checkFields_ok_true_iff fields).mpr hall
            rw [h] at hc
            exact absurd hc (by simp)

/-- Witness for C2 (amended) at a one-field result with an in-range
confidence and a complete non-negative bounding box. -/
theorem validate_ocr_result_iff_amended_witness :
    OcrProcessor.validate_ocr_result
      (PyVal.dict [("fields", PyVal.list
        [PyVal.dict [("confidence", PyVal.int 1),
          ("boundingBox", PyVal.dict [("x", PyVal.int 100),
            ("y", PyVal.int 50), ("width", PyVal.int 150),
            ("height", PyVal.int 30)])]])]) = true :=
  (validate_ocr_result_iff_amended
    [PyVal.dict [("confidence", PyVal.int 1),
      ("boundingBox", PyVal.dict [("x", PyVal.int 100),
        ("y", PyVal.int 50), ("width", PyVal.int 150),
        ("height", PyVal.int 30)])]]).mpr
    ⟨by simp, by decide⟩

/-- Helper for C4: after demotion, every record other than the one being
saved (by primary key) has its default flag cleared. -/
lemma demote_not_default (p : AISettings.AIProvider)
    (db : List AISettings.AIProvider) :
    ∀ q ∈ AISettings.demoteOtherDefaults p db, q.pk ≠ p.pk →
      q.is_default = false := by
  intro q hq hne
  obtain ⟨r, hr, hrq⟩ := List.mem_map.mp hq
  by_cases hc : r.is_default ∧ r.pk ≠ p.pk
  · rw [if_pos hc] at hrq
    subst hrq
    rfl
  · rw [if_neg hc] at hrq
    subst hrq
    by_contra hd
    rw [Bool.not_eq_false] at hd
    exact hc ⟨hd, hne⟩

/-- Claim C4 counterexample: saving an inactive record with its default flag
set demotes the previously active default, after which zero (not exactly
one) active providers have default set. -/
theorem save_inactive_default_counterexample :
    providerInactiveDefault.is_default = true ∧
    ((AISettings.save providerInactiveDefault [providerAzure]).filter
      (fun q => q.is_active && q.is_default)).length = 0 := by
  constructor
  · rfl
  · simp [AISettings.save, AISettings.upsert, AISettings.demoteOtherDefaults,
      providerAzure, providerInactiveDefault]

/-- Claim C4 (amended): after saving a record with its default flag set, that
record is in the store and is the only record whose default flag is set —
every other default is demoted regardless of activity; when the saved record
is itself inactive, no active default remains. -/
theorem save_default_unique_amended (db : List AISettings.AIProvider)
    (p : AISettings.AIProvider) (hp : p.is_default = true) :
    p ∈ AISettings.save p db ∧
    (∀ q ∈ AISettings.save p db, q.is_default = true → q = p) := by
  rw [AISettings.save, if_pos hp]
  constructor
  · rw [AISettings.upsert]
    by_cases hany :
        (AISettings.demoteOtherDefaults p db).any (fun q => q.pk = p.pk) = true
    · rw [if_pos hany]
      obtain ⟨q, hq, hqpk⟩ := List.any_eq_true.mp hany
      rw [decide_eq_true_eq] at hqpk
      exact List.mem_map.mpr ⟨q, hq, by rw [if_pos hqpk]⟩
    · rw [if_neg hany]
      exact List.mem_append_right _ (List.mem_singleton_self p)
  · intro q hq hqd
    rw [AISettings.upsert] at hq
    by_cases hany :
        (AISettings.demoteOtherDefaults p db).any (fun r => r.pk = p.pk) = true
    · rw [if_pos hany] at hq
      obtain ⟨r, hr, hrq⟩ := List.mem_map.mp hq
      by_cases hpk : r.pk = p.pk
      · rw [if_pos hpk] at hrq
        exact hrq.symm
      · rw [if_neg hpk] at hrq
        subst hrq
        exact absurd hqd (by simp [demote_not_default p db r hr hpk])
    · rw [if_neg hany] at hq
      rcases List.mem_append.mp hq with hq1 | hq1
      · have hpk : q.pk ≠ p.pk := by
          intro hqpk
          rw [List.any_eq_true] at hany
          exact hany ⟨q, hq1, decide_eq_true hqpk⟩
        exact absurd hqd (by simp [demote_not_default p db q hq1 hpk])
      · exact List.mem_singleton.mp hq1

/-- Witness for C4 (amended) at the concrete store holding one active
default and the inactive record being saved. -/
theorem save_default_unique_amended_witness :
    providerInactiveDefault ∈
      AISettings.save providerInactiveDefault [providerAzure] ∧
    providerInactiveDefault = providerInactiveDefault :=
  ⟨(save_default_unique_amended [providerAzure] providerInactiveDefault rfl).1,
    (save_default_unique_amended [providerAzure] providerInactiveDefault rfl).2
      providerInactiveDefault
      (save_default_unique_amended [providerAzure] providerInactiveDefault rfl).1
      rfl⟩

/-- Claim C7: every run of the streaming endpoint emits zero or more content
events followed by exactly one terminal event — `done` on normal completion,
`error` on failure, never both — and every emitted line is framed as
`data: <json>` plus a blank line. -/
theorem stream_response_event_contract (chunks : List String)
    (failure : Option String) :
    ((AISettingsViews.stream_response_events chunks failure).countP
        (fun e => e.isTerminal) = 1) ∧
    ((AISettingsViews.stream_response_events chunks failure).getLast? =
        some (AISettingsViews.terminalOf failure)) ∧
    (∀ e ∈ (AISettingsViews.stream_response_events chunks failure).dropLast,
        ∃ c, c ≠ "" ∧ e = AISettingsViews.SSEEvent.content c) ∧
    (∀ ev ∈ AISettingsViews.stream_response chunks failure,
        ∃ e, ev = "data: " ++ AISettingsViews.eventPayload e ++ "\n\n") := by
  refine ⟨?_, ?_, ?_, ?_⟩
  · rw [AISettingsViews.stream_response_events, List.countP_append]
    have h0 : ((chunks.filter (fun c => c ≠ "")).map
        AISettingsViews.SSEEvent.content).countP
          (fun e => e.isTerminal) = 0 := by
      refine List.countP_eq_zero.mpr ?_
      intro e he
      obtain ⟨c, _, rfl⟩ := List.mem_map.mp he
      simp [AISettingsViews.SSEEvent.isTerminal]
    rw [h0]
    cases failure <;> rfl
  · rw [AISettingsViews.stream_response_events]
    simp [List.getLast?_concat]
  · rw [AISettingsViews.stream_response_events]
    rw [List.dropLast_concat]
    intro e he
    obtain ⟨c, hc, rfl⟩ := List.mem_map.mp he
    exact ⟨c, by simpa using (List.mem_filter.mp hc).2, rfl⟩
  · intro ev hev
    obtain ⟨e, _, rfl⟩ := List.mem_map.mp hev
    exact ⟨e, rfl⟩

/-- Witness for C7 at a two-chunk run (one chunk empty) completing normally,
discharging the per-event hypotheses at the content event and the framed
line. -/
theorem stream_response_event_contract_witness :
    ((AISettingsViews.stream_response_events ["Hel", ""] Option.none).countP
        (fun e => e.isTerminal) = 1) ∧
    (∃ c, c ≠ "" ∧
      AISettingsViews.SSEEvent.content "Hel" =
        AISettingsViews.SSEEvent.content c) ∧
    (∃ e, AISettingsViews.frameEvent AISettingsViews.SSEEvent.done =
      "data: " ++ AISettingsViews.eventPayload e ++ "\n\n") :=
  ⟨(stream_response_event_contract ["Hel", ""] Option.none).1,
    (stream_response_event_contract ["Hel", ""] Option.none).2.2.1
      (AISettingsViews.SSEEvent.content "Hel") (by decide),
    (stream_response_event_contract ["Hel", ""] Option.none).2.2.2
      (AISettingsViews.frameEvent AISettingsViews.SSEEvent.done) (by decide)⟩

/-- Claim C8 counterexample: for a parsed result with two fields of which
only one carries a confidence (value 4), the code sets `overallConfidence`
to `round(sum-with-missing-as-zero / total-field-count, 2) = 2`, while the
claimed arithmetic mean over the fields that have a confidence is 4. -/
theorem overall_confidence_counterexample :
    OcrProcessor.ocrSetOverallConfidence
      (PyVal.dict [("fields", PyVal.list
        [PyVal.dict [("confidence", PyVal.int 4)], PyVal.dict []])]) =
      .ok (PyVal.dict [("fields", PyVal.list
        [PyVal.dict [("confidence", PyVal.int 4)], PyVal.dict []]),
        ("overallConfidence", PyVal.num 2)]) ∧
    OcrProcessor.specOverallConfidence
      [PyVal.dict [("confidence", PyVal.int 4)], PyVal.dict []] = 4 ∧
    ((2 : Rat) ≠ 4) := by
  refine ⟨?_, ?_, by norm_num⟩
  · have hsum : OcrProcessor.sumConfidences
        [PyVal.dict [("confidence", PyVal.int 4)], PyVal.dict []] = .ok 4 := by
      norm_num [OcrProcessor.sumConfidences, PyVal.pyGet, PyVal.isNumber,
        PyVal.toQ, List.lookup]
    have hr : OcrProcessor.round2 ((4 : Rat) / 2) = 2 := by
      rw [OcrProcessor.round2]
      rw [show ((4 : Rat) / 2) * 100 = ((200 : Int) : Rat) by norm_num]
      rw [show OcrProcessor.roundHalfEven ((200 : Int) : Rat) = 200 by
        simp [OcrProcessor.roundHalfEven, Int.floor_intCast]]
      norm_num
    rw [OcrProcessor.ocrSetOverallConfidence]
    simp [List.lookup, hsum, hr, PyVal.dictSet]
  · rw [OcrProcessor.specOverallConfidence]
    simp only [List.filterMap_cons, List.filterMap_nil,
      OcrProcessor.confidenceOf, List.lookup, PyVal.isNumber, PyVal.toQ]
    norm_num

/-- Claim C8 (amended): when the parsed result lacks `overallConfidence`,
the pipeline sets it to `round(S / N, 2)` where `S` sums each field's
confidence with missing confidences counted as 0 and `N` is the total number
of fields (0.0 when the field list is empty) — not the mean over only the
fields that have a confidence. -/
theorem overall_confidence_amended (fields : List PyVal)
    (h : ∀ f ∈ fields, OcrProcessor.fieldConfOk f = true) :
    OcrProcessor.ocrSetOverallConfidence
      (PyVal.dict [("fields", PyVal.list fields)]) =
      .ok (PyVal.dict [("fields", PyVal.list fields),
        ("overallConfidence", PyVal.num
          (if fields.length = 0 then 0
           else OcrProcessor.round2
             ((fields.map OcrProcessor.confOrZero).sum /
               (fields.length : Rat))))]) := by
  rw [OcrProcessor.ocrSetOverallConfidence]
  by_cases hlen : fields.length = 0
  · simp [List.lookup, hlen, PyVal.dictSet]
  · simp [List.lookup, hlen, PyVal.dictSet,
      OcrProcessor.sumConfidences_eq_sum fields h]

/-- Witness for C8 (amended) at two fields carrying confidences 1 and 0. -/
theorem overall_confidence_amended_witness :
    OcrProcessor.ocrSetOverallConfidence
      (PyVal.dict [("fields", PyVal.list
        [PyVal.dict [("confidence", PyVal.int 1)],
         PyVal.dict [("confidence", PyVal.int 0)]])]) =
      .ok (PyVal.dict [("fields", PyVal.list
        [PyVal.dict [("confidence", PyVal.int 1)],
         PyVal.dict [("confidence", PyVal.int 0)]]),
        ("overallConfidence", PyVal.num
          (if ([PyVal.dict [("confidence", PyVal.int 1)],
                PyVal.dict [("confidence", PyVal.int 0)]].length) = 0 then 0
           else OcrProcessor.round2
             (([PyVal.dict [("confidence", PyVal.int 1)],
                PyVal.dict [("confidence", PyVal.int 0)]].map
                  OcrProcessor.confOrZero).sum /
               (([PyVal.dict [("confidence", PyVal.int 1)],
                  PyVal.dict [("confidence", PyVal.int 0)]].length) : Rat))))]) :=
  overall_confidence_amended
    [PyVal.dict [("confidence", PyVal.int 1)],
     PyVal.dict [("confidence", PyVal.int 0)]] (by decide)

/-- Claim C6 counterexample: on the response `x {"a": 1} y` (no code fence)
the claimed strategy order succeeds — the bare brace span parses — but the
code selects the whole trimmed text as its only candidate, the single parse
attempt fails, and the pipeline raises the malformed-output error instead of
falling back. -/
theorem extraction_strategy_counterexample :
    (OcrProcessor.specExtractParse "x \x7b\"a\": 1\x7d y").isSome = true ∧
    OcrProcessor.ocrParseStage "x \x7b\"a\": 1\x7d y" =
      Except.error OcrProcessor.OcrFailure.malformedOutput :=
  ⟨by decide, rfl⟩

/-- Claim C6 (amended): the pipeline selects exactly one JSON candidate by
delimiter precedence (a ```json fence, else any ``` fence, else the whole
stripped response) and makes a single parse attempt on it: success returns
the parsed payload and failure raises the malformed-output error (the
truncated raw text goes to the diagnostic log, not into the error); there is
no bare-brace strategy and no fallback after a failed parse. -/
theorem extraction_single_candidate_amended (response : String) :
    (PyVal.strContains response "```json" = false →
      PyVal.strContains response "```" = false →
      OcrProcessor.ocrExtractJson response = OcrProcessor.pyStrip response) ∧
    (∀ v, OcrProcessor.jsonParse (OcrProcessor.ocrExtractJson response) =
        some v →
      OcrProcessor.ocrParseStage response = .ok v) ∧
    (OcrProcessor.jsonParse (OcrProcessor.ocrExtractJson response) =
        Option.none →
      OcrProcessor.ocrParseStage response =
        .error OcrProcessor.OcrFailure.malformedOutput) := by
  refine ⟨?_, ?_, ?_⟩
  · intro h1 h2
    rw [OcrProcessor.ocrExtractJson, if_neg (by simp [h1]),
      if_neg (by simp [h2])]
  · intro v hv
    rw [OcrProcessor.ocrParseStage, hv]
  · intro hv
    rw [OcrProcessor.ocrParseStage, hv]

/-- Witness for C6 (amended): a fence-free response falls through to the
whole stripped text; a fenced JSON payload parses; an unparseable response
raises the malformed-output error. -/
theorem extraction_single_candidate_amended_witness :
    (OcrProcessor.ocrExtractJson "x y z" = OcrProcessor.pyStrip "x y z") ∧
    (OcrProcessor.ocrParseStage "```json\n\x7b\"a\": 1\x7d\n```" =
      .ok (PyVal.dict [("a", PyVal.int 1)])) ∧
    (OcrProcessor.ocrParseStage "no json here" =
      .error OcrProcessor.OcrFailure.malformedOutput) :=
  ⟨(extraction_single_candidate_amended "x y z").1 (by decide) (by decide),
    (extraction_single_candidate_amended "```json\n\x7b\"a\": 1\x7d\n```").2.1
      (PyVal.dict [("a", PyVal.int 1)]) rfl,
    (extraction_single_candidate_amended "no json here").2.2 rfl⟩
